import Mathlib

/-!
# Verification of the vortix VPN manager core

Shallow embedding of the vortix kill-switch data model, the kill-switch
engine, the connection state machine reconciliation step, and the profile
import/parsing pipeline, together with proofs of the specified properties.

Pure types and functions present in the repository sources
(`src/state/killswitch.rs`, `src/state/connection.rs`, `src/vpn/mod.rs`,
`src/cli/report.rs`) are translated directly.  The kill-switch engine
(`core/killswitch.rs`) and the connection-state-machine reconciliation step
are referenced by the sources (`cli/report.rs` calls
`core::killswitch::load_state`, `cli/args.rs` declares `ReleaseKillSwitch`)
but their implementation files are not available; those operations are
modelled from the specification, as marked in their doc comments.
-/

namespace Vortix

/-! ## Kill switch types (from `src/state/killswitch.rs`) -/

/-- Kill switch operating mode (`KillSwitchMode` in `state/killswitch.rs`).
`Off` is the `#[default]` variant. -/
inductive KillSwitchMode where
  | Off
  | Auto
  | AlwaysOn
deriving DecidableEq, Repr, Inhabited, Fintype

/-- Cycle to next mode: Off → Auto → AlwaysOn → Off
(`KillSwitchMode::next`). -/
def KillSwitchMode.next : KillSwitchMode → KillSwitchMode
  | .Off => .Auto
  | .Auto => .AlwaysOn
  | .AlwaysOn => .Off

/-- Current kill switch operational state (`KillSwitchState` in
`state/killswitch.rs`).  `Disabled` is the `#[default]` variant. -/
inductive KillSwitchState where
  | Disabled
  | Armed
  | Blocking
deriving DecidableEq, Repr, Inhabited, Fintype

/-- Check if currently blocking traffic (`KillSwitchState::is_blocking`). -/
def KillSwitchState.is_blocking : KillSwitchState → Bool
  | .Blocking => true
  | _ => false

/-! ## Kill-switch engine model

The engine itself (`core/killswitch.rs`) is not among the available source
files; the following definitions are modelled from the specification
(§3, §4.2, §4.3 of the spec). -/

/-- Connection-state kind as seen by the kill-switch engine.  The spec's
CSM transition events carry only the state kind plus the
`user_initiated` flag. -/
inductive ConnKind where
  | Disconnected
  | Connecting
  | Connected
  | Disconnecting
deriving DecidableEq, Repr, Inhabited, Fintype

/-- Modelled from the spec: the structured CSM transition event
`{from, to, user_initiated}` (§4.1) consumed by the kill-switch engine.
The engine implementation consuming it is missing from the sources. -/
structure ConnEvent where
  fromState : ConnKind
  toState : ConnKind
  user_initiated : Bool
deriving DecidableEq, Repr, Fintype

/-- Modelled from the spec: the `(mode, state)` pair owned by the
kill-switch engine (`core/killswitch.rs`, missing from the sources). -/
structure KseConfig where
  mode : KillSwitchMode
  state : KillSwitchState
deriving DecidableEq, Repr, Fintype

/-- Firewall backend primitive invoked by the kill-switch engine (§6). -/
inductive FwAction where
  | applyBlock
  | releaseBlock
deriving DecidableEq, Repr, Fintype

/-- Result of one kill-switch engine step: the new `(mode, state)` pair
(which is also what gets persisted, since the spec persists on every
transition) and the firewall calls made during the step, in order. -/
structure KseResult where
  config : KseConfig
  actions : List FwAction
deriving DecidableEq, Repr

/-- Modelled from the spec: recompute the kill-switch state from
`(mode, connection state)` using the table in §3.  `deliberate` records
whether an absent tunnel is absent because of a deliberate user
disconnect (the `user_initiated` flag the CSM keeps until reaching
`Disconnected`). -/
def deriveState (mode : KillSwitchMode) (conn : ConnKind)
    (deliberate : Bool) : KillSwitchState :=
  match mode with
  | .Off => .Disabled
  | .AlwaysOn => if conn = .Connected then .Armed else .Blocking
  | .Auto =>
      if conn = .Connected then .Armed
      else if deliberate then .Armed else .Blocking

/-- Modelled from the spec: `set_mode(new_mode)` (§4.2) of the missing
kill-switch engine.  Recomputes the state from the new mode and the
current connection state, and applies or releases the firewall block
accordingly; switching to `Off` releases unconditionally. -/
def set_mode (_c : KseConfig) (newMode : KillSwitchMode) (conn : ConnKind)
    (deliberate : Bool) : KseResult :=
  let st := deriveState newMode conn deliberate
  { config := ⟨newMode, st⟩
    actions := if st = .Blocking then [.applyBlock] else [.releaseBlock] }

/-- Modelled from the spec: `on_connection_event(event)` (§4.2) of the
missing kill-switch engine.  `Off` is a no-op; entering `Connected` arms
(releasing any active block); `AlwaysOn` blocks in every non-`Connected`
state; `Auto` blocks on a non-user-initiated departure from `Connected`
and on a failed/timed-out connect (§7 treats `ConnectTimeout` as an
unexpected-drop signal in `Auto` mode), and arms without blocking on a
deliberate disconnect. -/
def on_connection_event (c : KseConfig) (e : ConnEvent) : KseResult :=
  match c.mode with
  | .Off => ⟨c, []⟩
  | .AlwaysOn =>
      if e.toState = .Connected then
        ⟨⟨.AlwaysOn, .Armed⟩, if c.state = .Blocking then [.releaseBlock] else []⟩
      else
        ⟨⟨.AlwaysOn, .Blocking⟩, [.applyBlock]⟩
  | .Auto =>
      if e.toState = .Connected then
        ⟨⟨.Auto, .Armed⟩, if c.state = .Blocking then [.releaseBlock] else []⟩
      else if e.fromState = .Connected then
        if e.user_initiated then ⟨⟨.Auto, .Armed⟩, []⟩
        else ⟨⟨.Auto, .Blocking⟩, [.applyBlock]⟩
      else if e.fromState = .Connecting ∧ e.toState = .Disconnected
          ∧ e.user_initiated = false then
        ⟨⟨.Auto, .Blocking⟩, [.applyBlock]⟩
      else ⟨c, []⟩

/-- Modelled from the spec: `emergency_release()` (§4.2) of the missing
kill-switch engine.  Unconditionally releases any firewall block and
resets the record to `Off`/`Disabled`, regardless of the prior state. -/
def emergency_release (_c : KseConfig) : KseResult :=
  ⟨⟨.Off, .Disabled⟩, [.releaseBlock]⟩

/-- Modelled from the spec: the persisted record `{mode, state, revision}`
(§6) written by the missing persisted-state store on every transition. -/
structure PersistRecord where
  mode : KillSwitchMode
  state : KillSwitchState
  revision : Nat
deriving DecidableEq, Repr

/-- Modelled from the spec: `load()` (§4.3) of the missing persisted state
store.  Returns `none` when no record exists, otherwise the last
persisted `(mode, state)` verbatim; it takes no firewall information, so
no cross-validation against live firewall state can occur. -/
def load_state (store : Option PersistRecord) :
    Option (KillSwitchMode × KillSwitchState) :=
  store.map fun r => (r.mode, r.state)

/-- Modelled from the spec: startup reconciliation (§4.3) of the missing
kill-switch engine.  Loads the persisted record (fresh install defaults
to `Off`/`Disabled`) and, if it indicates `Blocking`, re-applies the
firewall block immediately, before anything else. -/
def kse_startup (store : Option PersistRecord) : KseResult :=
  match load_state store with
  | none => ⟨⟨.Off, .Disabled⟩, []⟩
  | some (m, s) => ⟨⟨m, s⟩, if s = .Blocking then [.applyBlock] else []⟩

/-- Process a list of CSM transition events in order, accumulating the
firewall calls made along the way. -/
def processEvents (c : KseConfig) : List ConnEvent → KseResult
  | [] => ⟨c, []⟩
  | e :: es =>
      let r := on_connection_event c e
      let rest := processEvents r.config es
      ⟨rest.config, r.actions ++ rest.actions⟩

/-- Startup followed by event processing: the full firewall-call trace of
a process run that loads `store` and then handles `events`. -/
def startupRun (store : Option PersistRecord) (events : List ConnEvent) :
    KseResult :=
  let init := kse_startup store
  let rest := processEvents init.config events
  ⟨rest.config, init.actions ++ rest.actions⟩

/-- The kill-switch configurations reachable by the engine: the initial
default record plus everything produced by `set_mode`,
`on_connection_event`, `emergency_release`, and a startup load of a
record persisted from a reachable configuration (the store is written
only on engine transitions, verbatim). -/
inductive ReachableKse : KseConfig → Prop where
  | init : ReachableKse ⟨.Off, .Disabled⟩
  | set (c : KseConfig) (m : KillSwitchMode) (conn : ConnKind) (d : Bool) :
      ReachableKse c → ReachableKse (set_mode c m conn d).config
  | event (c : KseConfig) (e : ConnEvent) :
      ReachableKse c → ReachableKse (on_connection_event c e).config
  | emergency (c : KseConfig) :
      ReachableKse c → ReachableKse (emergency_release c).config
  | startupFresh : ReachableKse (kse_startup none).config
  | startupLoad (r : PersistRecord) :
      ReachableKse ⟨r.mode, r.state⟩ →
      ReachableKse (kse_startup (some r)).config

/-- The §3 invariant on a kill-switch configuration. -/
def KseInv (c : KseConfig) : Prop :=
  (c.mode = .Off ↔ c.state = .Disabled) ∧
  (c.state = .Blocking → c.mode ≠ .Off)

instance : DecidablePred KseInv := fun c => by
  unfold KseInv; infer_instance

/-- Modelled from the spec: the firewall backend collaborator (§6), an
idempotent apply-block / release-block primitive over the firewall's
blocking state.  The second component reports success: both calls are
required to succeed as no-ops when already in the requested state. -/
def fwExec (_blocking : Bool) : FwAction → Bool × Bool
  | .applyBlock => (true, true)
  | .releaseBlock => (false, true)

/-! ## Connection state machine (types from `src/state/connection.rs`,
reconciliation step modelled from spec §4.1) -/

/-- Technical details parsed from the VPN interface
(`DetailedConnectionInfo` in `state/connection.rs`). -/
structure DetailedConnectionInfo where
  interface : String
  internal_ip : String
  endpoint : String
  mtu : String
  public_key : String
  listen_port : String
  transfer_rx : String
  transfer_tx : String
  latest_handshake : String
  pid : Option Nat
deriving DecidableEq, Repr, Inhabited

/-- VPN connection state machine (`ConnectionState` in
`state/connection.rs`); timestamps are modelled as `Nat` ticks. -/
inductive ConnectionState where
  | Disconnected
  | Connecting (started : Nat) (profile : String)
  | Connected (since : Nat) (profile : String) (server_location : String)
      (latency_ms : Nat) (details : DetailedConnectionInfo)
  | Disconnecting (started : Nat) (profile : String)
deriving DecidableEq, Repr, Inhabited

/-- Modelled from the spec: a Scanner observation of the tunnel for one
profile (§4.4); `none` at the call site stands for "no tunnel observed". -/
structure TunnelObs where
  profile : String
  active : Bool
  handshaking : Bool
  server_location : String
  latency_ms : Nat
  details : DetailedConnectionInfo
deriving DecidableEq, Repr, Inhabited

/-- Timeout conditions reported by the CSM reconciliation step (§7). -/
inductive CsmCond where
  | ConnectTimeout
  | DisconnectTimeout
deriving DecidableEq, Repr

/-- Modelled from the spec: `observe(scanner_snapshot)` (§4.1) of the
missing CSM implementation.  Scanner is authoritative: an active,
handshaking tunnel matching the connecting profile resolves
`Connecting → Connected`; no tunnel while `Connected`/`Connecting`
resolves to `Disconnected`; no tunnel while `Disconnecting` completes
the disconnect; optimistic states past their budget force-resolve to
`Disconnected` with a timeout condition. -/
def observe (s : ConnectionState) (snap : Option TunnelObs)
    (now budget : Nat) : ConnectionState × Option CsmCond :=
  match s with
  | .Disconnected => (.Disconnected, none)
  | .Connecting started profile =>
      match snap with
      | none => (.Disconnected, none)
      | some obs =>
          if obs.active = true ∧ obs.handshaking = true ∧ obs.profile = profile then
            (.Connected now profile obs.server_location obs.latency_ms obs.details,
             none)
          else if budget < now - started then
            (.Disconnected, some .ConnectTimeout)
          else (.Connecting started profile, none)
  | .Connected since profile _ _ _ =>
      match snap with
      | none => (.Disconnected, none)
      | some obs =>
          (.Connected since profile obs.server_location obs.latency_ms obs.details,
           none)
  | .Disconnecting started profile =>
      match snap with
      | none => (.Disconnected, none)
      | some _ =>
          if budget < now - started then (.Disconnected, some .DisconnectTimeout)
          else (.Disconnecting started profile, none)

/-! ## String primitives

The profile-import code works on Rust `&str` values; the embedding uses
`List Char` so that every operation is structurally recursive.  ASCII
case-folding and ASCII whitespace match the Rust behaviour on the ASCII
configs the importer handles. -/

/-- Rust string slices, embedded as character lists. -/
abbrev Str := List Char

/-- Literal helper. -/
def str (s : String) : Str := s.toList

/-- ASCII whitespace (Rust `char::is_whitespace` on the ASCII range). -/
def isWsCh (c : Char) : Bool := c = ' ' || c = '\t' || c = '\n' || c = '\r'

/-- Rust `str::trim`. -/
def trimCh (s : Str) : Str :=
  ((s.dropWhile isWsCh).reverse.dropWhile isWsCh).reverse

/-- Rust `str::to_lowercase` (ASCII case-folding). -/
def lowerCh (s : Str) : Str := s.map Char.toLower

/-- Rust `str::split(sep)` for a character separator. -/
def splitCh (sep : Char) : Str → List Str
  | [] => [[]]
  | c :: cs =>
      if c = sep then [] :: splitCh sep cs
      else
        match splitCh sep cs with
        | [] => [[c]]
        | t :: ts => (c :: t) :: ts

/-- Rust `str::split_once(sep)`. -/
def splitOnceCh (sep : Char) : Str → Option (Str × Str)
  | [] => none
  | c :: cs =>
      if c = sep then some ([], cs)
      else (splitOnceCh sep cs).map fun q => (c :: q.1, q.2)

/-- Worker for `hasSub`. -/
def subAux (pat : Str) : Str → Bool
  | [] => pat.isEmpty
  | c :: cs => pat.isPrefixOf (c :: cs) || subAux pat cs

/-- Rust `str::contains(pat)`. -/
def hasSub (s pat : Str) : Bool := subAux pat s

/-- Strip one trailing carriage return (Rust `strip_suffix('\r')`). -/
def stripCR (l : Str) : Str :=
  match l.getLast? with
  | some c => if c = '\r' then l.dropLast else l
  | none => l

/-- Rust `str::lines()`: split at newlines, strip one `\r` from each
terminated line, and treat the final line ending as optional. -/
def rustLines (s : Str) : List Str :=
  let parts := splitCh '\n' s
  let front := parts.dropLast.map stripCR
  let last := (parts.getLast?).getD []
  if last.isEmpty then front else front ++ [last]

/-- Rust `str::split_whitespace`. -/
def splitWsCh (s : Str) : List Str :=
  ((splitCh ' ' s).flatMap (splitCh '\t')).filter fun l => !l.isEmpty

/-! ## Profile types (from `src/state/profile.rs`) -/

/-- Supported VPN protocol types (`Protocol` in `state/profile.rs`);
`WireGuard` is the `#[default]` variant. -/
inductive Protocol where
  | WireGuard
  | OpenVPN
deriving DecidableEq, Repr, Inhabited

/-- VPN profile configuration (`VpnProfile` in `state/profile.rs`);
the config path is kept as its rendered string. -/
structure VpnProfile where
  name : Str
  protocol : Protocol
  location : Str
  config_path : Str
  last_used : Option Nat
deriving DecidableEq, Repr

/-! ## Profile import (from `src/vpn/mod.rs`) -/

/-- Modelled from the spec: `constants::MAX_CONFIG_SIZE_BYTES` is used by
`vpn/mod.rs` but its defining line is not among the available sources;
the import error message pins it to 1 MB. -/
def MAX_CONFIG_SIZE_BYTES : Nat := 1048576

/-- Detect protocol by inspecting file content
(`detect_protocol_from_content` in `vpn/mod.rs`). -/
def detect_protocol_from_content (content : Str) : Protocol :=
  let lower := lowerCh content
  let has_interface := hasSub lower (str "[interface]")
  let has_peer := hasSub lower (str "[peer]")
  let has_remote := (rustLines lower).any fun l =>
    (str "remote ").isPrefixOf (trimCh l) || (str "remote\t").isPrefixOf (trimCh l)
  let has_openvpn_markers := (rustLines lower).any fun l =>
    trimCh l == str "client" || (str "dev ").isPrefixOf (trimCh l) ||
      (str "proto ").isPrefixOf (trimCh l)
  if has_interface && has_peer then .WireGuard
  else if has_remote || has_openvpn_markers then .OpenVPN
  else .WireGuard

/-- City name patterns of `derive_location_from_name` in `vpn/mod.rs`. -/
def city_patterns : List (Str × Str) :=
  [(str "frankfurt", str "Frankfurt, DE"), (str "amsterdam", str "Amsterdam, NL"),
   (str "losangeles", str "Los Angeles, US"), (str "los-angeles", str "Los Angeles, US"),
   (str "newyork", str "New York, US"), (str "new-york", str "New York, US"),
   (str "tokyo", str "Tokyo, JP"), (str "london", str "London, GB"),
   (str "paris", str "Paris, FR"), (str "singapore", str "Singapore, SG"),
   (str "sydney", str "Sydney, AU"), (str "toronto", str "Toronto, CA"),
   (str "zurich", str "Zurich, CH")]

/-- Country-code dash patterns of `derive_location_from_name`. -/
def country_patterns : List (Str × Str) :=
  [(str "nl-", str "Netherlands"), (str "us-", str "United States"),
   (str "uk-", str "United Kingdom"), (str "gb-", str "United Kingdom"),
   (str "de-", str "Germany"), (str "fr-", str "France"),
   (str "jp-", str "Japan"), (str "ca-", str "Canada"),
   (str "au-", str "Australia"), (str "sg-", str "Singapore"),
   (str "ch-", str "Switzerland"), (str "se-", str "Sweden"),
   (str "es-", str "Spain"), (str "it-", str "Italy")]

/-- Bare two-letter country codes of `derive_location_from_name`. -/
def country_codes : List (Str × Str) :=
  [(str "nl", str "Netherlands"), (str "us", str "United States"),
   (str "uk", str "United Kingdom"), (str "gb", str "United Kingdom"),
   (str "de", str "Germany"), (str "fr", str "France"),
   (str "jp", str "Japan"), (str "ca", str "Canada"),
   (str "au", str "Australia"), (str "sg", str "Singapore"),
   (str "ch", str "Switzerland"), (str "se", str "Sweden"),
   (str "es", str "Spain"), (str "it", str "Italy")]

/-- Derive a display location from a profile name
(`derive_location_from_name` in `vpn/mod.rs`).  The bare country-code
branch reads the first two bytes of the name; a two-byte ASCII prefix is
the only way these can match a code, so the embedding requires the first
two characters to be ASCII. -/
def derive_location_from_name (name : Str) : Str :=
  let name_lower := lowerCh name
  match city_patterns.find? fun p => hasSub name_lower p.1 with
  | some p => p.2
  | none =>
  match country_patterns.find? fun p => p.1.isPrefixOf name_lower with
  | some p => p.2
  | none =>
  match name_lower with
  | c1 :: c2 :: rest =>
      if c1.toNat ≤ 127 && c2.toNat ≤ 127 then
        let valid_separator :=
          match rest with
          | [] => true
          | r :: _ => r == '_' || r == '-' || r.isDigit
        if valid_separator then
          match country_codes.find? fun p => [c1, c2] == p.1 with
          | some p => p.2
          | none => str "Unknown"
        else str "Unknown"
      else str "Unknown"
  | _ => str "Unknown"

/-- Accumulator of the required-key scan in `parse_wireguard_config`. -/
structure WgScan where
  has_private_key : Bool
  has_address : Bool
  has_public_key : Bool
  endpoint : Str
  in_peer : Bool
deriving DecidableEq, Repr

/-- Initial scan state of `parse_wireguard_config`. -/
def wgScanInit : WgScan := ⟨false, false, false, [], false⟩

/-- One line of the `parse_wireguard_config` required-key scan
(the body of its `for line in content.lines()` loop). -/
def wgStep (st : WgScan) (line : Str) : WgScan :=
  let trimmed := trimCh line
  let lower_line := lowerCh trimmed
  if lower_line = str "[peer]" then { st with in_peer := true }
  else if lower_line = str "[interface]" then { st with in_peer := false }
  else
    match splitOnceCh '=' lower_line with
    | none => st
    | some kv =>
        let key := trimCh kv.1
        if key = str "privatekey" ∧ st.in_peer = false then
          { st with has_private_key := true }
        else if key = str "address" ∧ st.in_peer = false then
          { st with has_address := true }
        else if key = str "publickey" ∧ st.in_peer = true then
          { st with has_public_key := true }
        else if key = str "endpoint" ∧ st.in_peer = true ∧ st.endpoint = [] then
          match splitOnceCh '=' trimmed with
          | some kv2 =>
              { st with endpoint := ((splitCh ':' (trimCh kv2.2)).headD []) }
          | none => st
        else st

/-- Parse and validate a WireGuard config (`parse_wireguard_config` in
`vpn/mod.rs`); `stem` is `path.file_stem()`. -/
def parse_wireguard_config (content : Str) (stem : Option Str) :
    Except Str (Str × Str) :=
  let name := stem.getD (str "unknown")
  let lower := lowerCh content
  if hasSub lower (str "[interface]") = false then
    .error (str "Missing [Interface] section in WireGuard config")
  else if hasSub lower (str "[peer]") = false then
    .error (str "Missing [Peer] section in WireGuard config")
  else
    let scan := (rustLines content).foldl wgStep wgScanInit
    let missing : List Str :=
      (if scan.has_private_key then [] else [str "PrivateKey"]) ++
      (if scan.has_address then [] else [str "Address"]) ++
      (if scan.has_public_key then [] else [str "PublicKey (in [Peer])"]) ++
      (if scan.endpoint = [] then [str "Endpoint (in [Peer])"] else [])
    if missing.isEmpty then .ok (name, derive_location_from_name name)
    else
      .error (str "Invalid WireGuard config — missing required fields: " ++
        List.intercalate (str ", ") missing)

/-- The OpenVPN directives recognised by `parse_openvpn_config`. -/
def openvpn_directives : List Str :=
  [str "client", str "dev ", str "dev\t", str "proto ", str "proto\t",
   str "ca ", str "cert ", str "key ", str "tls-auth", str "tls-crypt",
   str "cipher ", str "auth ", str "resolv-retry", str "nobind",
   str "persist-key", str "persist-tun", str "verb ", str "remote-cert-tls",
   str "comp-lzo"]

/-- The OpenVPN inline blocks recognised by `parse_openvpn_config`. -/
def openvpn_blocks : List Str :=
  [str "<ca>", str "<cert>", str "<key>", str "<tls-auth>", str "<tls-crypt>"]

/-- One line of the `parse_openvpn_config` scan, accumulating the first
`remote` host and whether any OpenVPN directive was seen. -/
def ovpnStep (acc : Str × Bool) (line : Str) : Str × Bool :=
  let trimmed := trimCh line
  let lower_line := lowerCh trimmed
  let server :=
    if acc.1 = [] ∧ (str "remote ").isPrefixOf lower_line then
      let parts := splitWsCh trimmed
      if 2 ≤ parts.length then parts.getD 1 [] else acc.1
    else acc.1
  let has_structure :=
    acc.2 || lower_line == str "client" ||
    openvpn_directives.any (fun d => d.isPrefixOf lower_line) ||
    openvpn_blocks.any (fun b => b.isPrefixOf lower_line)
  (server, has_structure)

/-- Parse and validate an OpenVPN config (`parse_openvpn_config` in
`vpn/mod.rs`). -/
def parse_openvpn_config (content : Str) (stem : Option Str) :
    Except Str (Str × Str) :=
  let name := stem.getD (str "unknown")
  let scan := (rustLines content).foldl ovpnStep ([], false)
  if scan.1 = [] then
    .error (str "No 'remote' directive found in OpenVPN config")
  else if scan.2 = false then
    .error (str "File has a 'remote' line but no OpenVPN directives (client, dev, proto, etc.)")
  else
    .ok (name, derive_location_from_name name)

/-- The filesystem facts about an import candidate that `import_profile`
consults: existence, readable metadata, byte size, the path's extension
and stem, the file content (`none` when reading fails), the stem chosen
by `get_unique_path` for the destination (`none` when unchanged), and
whether the copy and chmod calls succeed. -/
structure FileModel where
  pathStr : Str
  pathExists : Bool
  metadataOk : Bool
  size : Nat
  extension : Option Str
  stem : Option Str
  content : Option Str
  destStem : Option Str
  copyOk : Bool
  permsOk : Bool

/-- Import a VPN profile from a file (`import_profile` in `vpn/mod.rs`),
as a function of the filesystem facts it consults. -/
def import_profile (fm : FileModel) : Except Str VpnProfile :=
  if fm.pathExists = false then
    .error (str "File not found: " ++ fm.pathStr)
  else if fm.metadataOk = false then
    .error (str "Cannot read file metadata")
  else if MAX_CONFIG_SIZE_BYTES < fm.size then
    .error (str "File too large. VPN configs should be under 1 MB")
  else if fm.size = 0 then
    .error (str "File is empty")
  else
    let extension := lowerCh (fm.extension.getD [])
    match fm.content with
    | none => .error (str "Failed to read file")
    | some content =>
        let protocolResult : Except Str Protocol :=
          if extension = str "ovpn" then .ok .OpenVPN
          else if extension = str "conf" then
            .ok (detect_protocol_from_content content)
          else
            .error (str "Unsupported file type: ." ++ extension ++
              str " (expected .conf or .ovpn)")
        match protocolResult with
        | .error e => .error e
        | .ok protocol =>
            match (match protocol with
                   | .WireGuard => parse_wireguard_config content fm.stem
                   | .OpenVPN => parse_openvpn_config content fm.stem) with
            | .error e => .error e
            | .ok (name, location) =>
                let name := (fm.destStem.getD name)
                if fm.copyOk = false then
                  .error (str "Failed to copy profile")
                else if fm.permsOk = false then
                  .error (str "Failed to set permissions")
                else
                  .ok { name := name, protocol := protocol, location := location,
                        config_path := name ++ str "." ++ extension,
                        last_used := none }

/-! ## Specification-level predicates for the WireGuard parser and the
protocol detector, written from the claims' wording. -/

/-- The section scope transition: a `[Peer]` header line enters the peer
section, an `[Interface]` header line leaves it. -/
def nextInPeer (b : Bool) (line : Str) : Bool :=
  let t := lowerCh (trimCh line)
  if t = str "[peer]" then true else if t = str "[interface]" then false else b

/-- Each line paired with the section scope in force when it is read. -/
def scanScopes (b : Bool) : List Str → List (Str × Bool)
  | [] => []
  | l :: ls => (l, b) :: scanScopes (nextInPeer b l) ls

/-- The key of a `Key = Value` line, lowercased and trimmed. -/
def keyAt (line : Str) : Option Str :=
  (splitOnceCh '=' (lowerCh (trimCh line))).map fun q => trimCh q.1

/-- The case-preserved value of a `Key = Value` line, trimmed. -/
def valueAt (line : Str) : Str :=
  match splitOnceCh '=' (trimCh line) with
  | some q => trimCh q.2
  | none => []

/-- The host part of an endpoint value: everything before the first colon. -/
def hostAt (line : Str) : Str := (splitCh ':' (valueAt line)).headD []

/-- The content has a line carrying `key` while the `[Peer]` scope equals
`peer`. -/
def hasKeyInScope (content : Str) (peer : Bool) (key : Str) : Bool :=
  (scanScopes false (rustLines content)).any fun p =>
    p.2 == peer && keyAt p.1 == some key

/-- The content has an in-peer `Endpoint` line whose host part (before the
first colon) is non-empty: what the parser actually requires. -/
def hasGoodEndpoint (content : Str) : Bool :=
  (scanScopes false (rustLines content)).any fun p =>
    p.2 && keyAt p.1 == some (str "endpoint") && !(hostAt p.1).isEmpty

/-- The content has an in-peer `Endpoint` line with a non-empty value:
the requirement as the claim words it. -/
def hasEndpointValue (content : Str) : Bool :=
  (scanScopes false (rustLines content)).any fun p =>
    p.2 && keyAt p.1 == some (str "endpoint") && !(valueAt p.1).isEmpty

/-- The claim's acceptance condition for `parse_wireguard_config`, as
stated: both sections, `PrivateKey` and `Address` outside `[Peer]`,
`PublicKey` and an `Endpoint` with a non-empty value inside `[Peer]`. -/
def wgClaimRequired (content : Str) : Bool :=
  hasSub (lowerCh content) (str "[interface]") &&
  hasSub (lowerCh content) (str "[peer]") &&
  hasKeyInScope content false (str "privatekey") &&
  hasKeyInScope content false (str "address") &&
  hasKeyInScope content true (str "publickey") &&
  hasEndpointValue content

/-- The amended acceptance condition: the endpoint requirement asks for a
non-empty host part before the first colon. -/
def wgRequiredAmended (content : Str) : Bool :=
  hasSub (lowerCh content) (str "[interface]") &&
  hasSub (lowerCh content) (str "[peer]") &&
  hasKeyInScope content false (str "privatekey") &&
  hasKeyInScope content false (str "address") &&
  hasKeyInScope content true (str "publickey") &&
  hasGoodEndpoint content

/-- The missing-field list predicted from the spec-level predicates. -/
def wgMissingSpec (content : Str) : List Str :=
  (if hasKeyInScope content false (str "privatekey") then [] else [str "PrivateKey"]) ++
  (if hasKeyInScope content false (str "address") then [] else [str "Address"]) ++
  (if hasKeyInScope content true (str "publickey") then [] else [str "PublicKey (in [Peer])"]) ++
  (if hasGoodEndpoint content then [] else [str "Endpoint (in [Peer])"])

/-- First non-empty host among in-peer `Endpoint` lines, scope threaded
line by line; empty if there is none. -/
def specEndpoint (b : Bool) : List Str → Str
  | [] => []
  | l :: ls =>
      if b = true ∧ keyAt l = some (str "endpoint") ∧ hostAt l ≠ [] then hostAt l
      else specEndpoint (nextInPeer b l) ls

/-- Scope after processing a list of lines. -/
def scopeAfter (b : Bool) (ls : List Str) : Bool := ls.foldl nextInPeer b

/-- The detection rule exactly as the claim words it: WireGuard when the
lowercased content has both sections; else OpenVPN when some line starts
with a remote directive or with one of the OpenVPN markers "client",
"dev ", "proto "; else WireGuard. -/
def claimDetect (content : Str) : Protocol :=
  let lower := lowerCh content
  if hasSub lower (str "[interface]") && hasSub lower (str "[peer]") then
    .WireGuard
  else if (rustLines lower).any (fun l =>
      (str "remote ").isPrefixOf (trimCh l) || (str "remote\t").isPrefixOf (trimCh l) ||
      (str "client").isPrefixOf (trimCh l) || (str "dev ").isPrefixOf (trimCh l) ||
      (str "proto ").isPrefixOf (trimCh l)) then
    .OpenVPN
  else .WireGuard

/-- The amended detection rule: the "client" marker only matches a line
that is exactly "client" after trimming, as in the source. -/
def claimDetectAmended (content : Str) : Protocol :=
  let lower := lowerCh content
  if hasSub lower (str "[interface]") && hasSub lower (str "[peer]") then
    .WireGuard
  else if (rustLines lower).any (fun l =>
      (str "remote ").isPrefixOf (trimCh l) || (str "remote\t").isPrefixOf (trimCh l) ||
      trimCh l == str "client" || (str "dev ").isPrefixOf (trimCh l) ||
      (str "proto ").isPrefixOf (trimCh l)) then
    .OpenVPN
  else .WireGuard

/-- `Except` success test. -/
def exceptIsOk : Except ε α → Bool
  | .ok _ => true
  | .error _ => false

deriving instance DecidableEq for Except

/-- A concrete empty ".conf" file used as the C8 witness input. -/
def fmEmptyConf : FileModel :=
  { pathStr := str "/tmp/a.conf", pathExists := true, metadataOk := true,
    size := 0, extension := some (str "conf"), stem := some (str "a"),
    content := some [], destStem := none, copyOk := true, permsOk := true }

/-- The violating input for the C9 claim: a config whose `Endpoint` value
":51820" is non-empty but has an empty host part before the colon. -/
def wgCexContent : Str :=
  str "[Interface]\nPrivateKey = a\nAddress = b\n[Peer]\nPublicKey = c\nEndpoint = :51820"

/-- A config with both sections but no PrivateKey, used as the C9 witness
input. -/
def wgWitnessContent : Str :=
  str "[Interface]\nAddress = b\n[Peer]\nPublicKey = c\nEndpoint = h:1"


end Vortix

namespace Vortix

/-! ## Theorems for the kill-switch core claims -/

/-- C1: for every reachable pair of `KillSwitchMode` and `KillSwitchState`
(reachable through `set_mode`, `on_connection_event`, `emergency_release`
and the startup load), the mode equals `Off` iff the state equals
`Disabled`, and a `Blocking` state implies the mode is not `Off`. -/
theorem c1_kse_invariant (c : KseConfig) (h : ReachableKse c) :
    (c.mode = .Off ↔ c.state = .Disabled) ∧
    (c.state = .Blocking → c.mode ≠ .Off) := by
  have hset : ∀ (x : KseConfig) (m : KillSwitchMode) (conn : ConnKind) (d : Bool),
      KseInv (set_mode x m conn d).config := by decide
  have hev : ∀ (x : KseConfig) (e : ConnEvent),
      KseInv x → KseInv (on_connection_event x e).config := by decide
  have hinv : KseInv c := by
    induction h with
    | init => decide
    | set x m conn d _ _ => exact hset x m conn d
    | event x e _ ih => exact hev x e ih
    | emergency x _ _ => exact (by decide : KseInv ⟨.Off, .Disabled⟩)
    | startupFresh => decide
    | startupLoad r _ ih => exact ih
  exact hinv

theorem c1_kse_invariant_witness :
    ReachableKse ⟨.Off, .Disabled⟩ ∧
    (((⟨.Off, .Disabled⟩ : KseConfig).mode = .Off ↔
        (⟨.Off, .Disabled⟩ : KseConfig).state = .Disabled) ∧
     ((⟨.Off, .Disabled⟩ : KseConfig).state = .Blocking →
        (⟨.Off, .Disabled⟩ : KseConfig).mode ≠ .Off)) :=
  ⟨.init, c1_kse_invariant _ .init⟩

/-- C2: in `Auto` mode, handling a connection event that leaves
`Connected`, the result is `Blocking` with a firewall block applied iff
`user_initiated` is false; with `user_initiated` true the result is
`Armed` and no block is applied.  (A `ConnectTimeout` is reported by the
CSM as a transition out of `Connecting` with `user_initiated = false`,
so it never occurs on an event leaving `Connected`.) -/
theorem c2_auto_leaving_connected (c : KseConfig) (e : ConnEvent)
    (hm : c.mode = .Auto) (hf : e.fromState = .Connected)
    (ht : e.toState ≠ .Connected) :
    (((on_connection_event c e).config.state = .Blocking ∧
        FwAction.applyBlock ∈ (on_connection_event c e).actions) ↔
      e.user_initiated = false) ∧
    (e.user_initiated = true →
      (on_connection_event c e).config.state = .Armed ∧
      FwAction.applyBlock ∉ (on_connection_event c e).actions) := by
  revert hm hf ht
  revert c e
  decide

theorem c2_auto_leaving_connected_witness :
    (⟨.Auto, .Armed⟩ : KseConfig).mode = .Auto ∧
    (⟨.Connected, .Disconnected, false⟩ : ConnEvent).fromState = .Connected ∧
    (⟨.Connected, .Disconnected, false⟩ : ConnEvent).toState ≠ .Connected ∧
    ((((on_connection_event ⟨.Auto, .Armed⟩
          ⟨.Connected, .Disconnected, false⟩).config.state = .Blocking ∧
        FwAction.applyBlock ∈ (on_connection_event ⟨.Auto, .Armed⟩
          ⟨.Connected, .Disconnected, false⟩).actions) ↔
      (⟨.Connected, .Disconnected, false⟩ : ConnEvent).user_initiated = false) ∧
    ((⟨.Connected, .Disconnected, false⟩ : ConnEvent).user_initiated = true →
      (on_connection_event ⟨.Auto, .Armed⟩
          ⟨.Connected, .Disconnected, false⟩).config.state = .Armed ∧
      FwAction.applyBlock ∉ (on_connection_event ⟨.Auto, .Armed⟩
          ⟨.Connected, .Disconnected, false⟩).actions)) :=
  ⟨rfl, rfl, by decide,
   c2_auto_leaving_connected ⟨.Auto, .Armed⟩ ⟨.Connected, .Disconnected, false⟩
     rfl rfl (by decide)⟩

/-- C3: at startup the engine loads the persisted `(mode, state)` record,
and whenever the loaded state is `Blocking` it re-applies the firewall
block first, before any other event is processed. -/
theorem c3_startup_reapplies_block (store : Option PersistRecord)
    (r : PersistRecord) (hs : store = some r) (hb : r.state = .Blocking) :
    (kse_startup store).config = ⟨r.mode, r.state⟩ ∧
    (kse_startup store).actions = [.applyBlock] ∧
    ∀ events : List ConnEvent,
      (startupRun store events).actions.head? = some .applyBlock := by
  subst hs
  refine ⟨rfl, ?_, ?_⟩
  · simp [kse_startup, load_state, hb]
  · intro events
    simp [startupRun, kse_startup, load_state, hb]

theorem c3_startup_reapplies_block_witness :
    (kse_startup (some ⟨.AlwaysOn, .Blocking, 7⟩)).config =
      ⟨.AlwaysOn, .Blocking⟩ ∧
    (kse_startup (some ⟨.AlwaysOn, .Blocking, 7⟩)).actions = [.applyBlock] ∧
    (startupRun (some ⟨.AlwaysOn, .Blocking, 7⟩)
        [⟨.Disconnected, .Connecting, false⟩]).actions.head? =
      some .applyBlock :=
  ⟨(c3_startup_reapplies_block _ ⟨.AlwaysOn, .Blocking, 7⟩ rfl rfl).1,
   (c3_startup_reapplies_block _ ⟨.AlwaysOn, .Blocking, 7⟩ rfl rfl).2.1,
   (c3_startup_reapplies_block _ ⟨.AlwaysOn, .Blocking, 7⟩ rfl rfl).2.2 _⟩

/-- C4: `emergency_release` always yields `mode = Off`, `state = Disabled`
and exactly one `release_block` call, which succeeds from any firewall
state (the backend release is idempotent and always succeeds); running
it again from the configuration it produced changes nothing and still
succeeds. -/
theorem c4_emergency_release (c : KseConfig) :
    (emergency_release c).config = ⟨.Off, .Disabled⟩ ∧
    (emergency_release c).actions = [.releaseBlock] ∧
    (∀ fw : Bool, (fwExec fw .releaseBlock).2 = true) ∧
    emergency_release (emergency_release c).config = emergency_release c := by
  refine ⟨rfl, rfl, ?_, rfl⟩
  decide

/-- C6: `load` of the persisted state store returns `none` exactly when no
record exists (a fresh install; the declared defaults of the two source
types are `Off` and `Disabled`), and otherwise returns the persisted
`(mode, state)` verbatim. -/
theorem c6_load_state (store : Option PersistRecord) :
    (load_state store = none ↔ store = none) ∧
    (∀ r : PersistRecord, store = some r →
      load_state store = some (r.mode, r.state)) ∧
    (default : KillSwitchMode) = .Off ∧
    (default : KillSwitchState) = .Disabled := by
  refine ⟨?_, ?_, rfl, rfl⟩
  · cases store <;> simp [load_state]
  · intro r h
    subst h
    rfl

theorem c6_load_state_witness :
    load_state (some ⟨.AlwaysOn, .Blocking, 3⟩) =
      some (.AlwaysOn, .Blocking) ∧
    load_state none = none :=
  ⟨(c6_load_state (some ⟨.AlwaysOn, .Blocking, 3⟩)).2.1 _ rfl,
   (c6_load_state none).1.mpr rfl⟩

/-- C7: the kill-switch mode cycle maps Off → Auto → AlwaysOn → Off, and
for every mode these are the only transitions `next` produces. -/
theorem c7_mode_cycle :
    KillSwitchMode.next .Off = .Auto ∧
    KillSwitchMode.next .Auto = .AlwaysOn ∧
    KillSwitchMode.next .AlwaysOn = .Off ∧
    ∀ m : KillSwitchMode,
      (m = .Off ∧ m.next = .Auto) ∨ (m = .Auto ∧ m.next = .AlwaysOn) ∨
      (m = .AlwaysOn ∧ m.next = .Off) := by
  decide

/-- C5: the Scanner is authoritative in `observe`: an active,
handshaking tunnel matching the profile of a `Connecting` state resolves
to `Connected`, and a snapshot showing no tunnel while `Connected` or
`Connecting` resolves to `Disconnected`. -/
theorem c5_observe_scanner_authoritative (s : ConnectionState)
    (now budget : Nat) :
    (∀ (started : Nat) (profile : String) (obs : TunnelObs),
      s = .Connecting started profile →
      obs.active = true → obs.handshaking = true → obs.profile = profile →
      (observe s (some obs) now budget).1 =
        .Connected now profile obs.server_location obs.latency_ms obs.details) ∧
    (((∃ a b c d e, s = .Connected a b c d e) ∨ (∃ a b, s = .Connecting a b)) →
      (observe s none now budget).1 = .Disconnected) := by
  constructor
  · intro started profile obs hs ha hh hp
    subst hs
    simp [observe, ha, hh, hp]
  · rintro (⟨a, b, c, d, e, rfl⟩ | ⟨a, b, rfl⟩) <;> rfl

theorem c5_observe_scanner_authoritative_witness :
    (({ profile := "wg0", active := true, handshaking := true,
        server_location := "Unknown", latency_ms := 12,
        details := default } : TunnelObs).active = true) ∧
    (observe (.Connecting 0 "wg0")
        (some { profile := "wg0", active := true, handshaking := true,
                server_location := "Unknown", latency_ms := 12,
                details := default }) 5 30).1 =
      .Connected 5 "wg0" "Unknown" 12 default ∧
    (observe (.Connecting 0 "wg0") none 5 30).1 = .Disconnected :=
  ⟨rfl,
   (c5_observe_scanner_authoritative (.Connecting 0 "wg0") 5 30).1 0 "wg0" _
     rfl rfl rfl rfl,
   (c5_observe_scanner_authoritative (.Connecting 0 "wg0") 5 30).2
     (Or.inr ⟨0, "wg0", rfl⟩)⟩

/-! ## Lemmas about the WireGuard required-key scan -/

theorem someBeqSome (a b : Str) : (some a == some b) = (a == b) := rfl

theorem beqStr_eq_decide (a b : Str) : (a == b) = decide (a = b) := by
  by_cases h : a = b
  · subst h
    simp
  · have hb : (a == b) = false := by
      cases hab : a == b
      · rfl
      · exact absurd (eq_of_beq hab) h
    rw [hb, decide_eq_false h]

theorem wgStep_eq (st : WgScan) (l : Str) :
    wgStep st l =
      { has_private_key := st.has_private_key ||
          (!st.in_peer && (keyAt l == some (str "privatekey"))),
        has_address := st.has_address ||
          (!st.in_peer && (keyAt l == some (str "address"))),
        has_public_key := st.has_public_key ||
          (st.in_peer && (keyAt l == some (str "publickey"))),
        endpoint := if st.in_peer = true ∧ keyAt l = some (str "endpoint") ∧
            st.endpoint = [] then hostAt l else st.endpoint,
        in_peer := nextInPeer st.in_peer l } := by
  have hpe : splitOnceCh '=' (str "[peer]") = none := by decide
  have hin : splitOnceCh '=' (str "[interface]") = none := by decide
  have hnil : splitCh ':' ([] : Str) = [[]] := by decide
  obtain ⟨fp, fa, fq, fe, fi⟩ := st
  by_cases h1 : lowerCh (trimCh l) = str "[peer]"
  · simp +decide [wgStep, nextInPeer, keyAt, h1, hpe]
  · by_cases h2 : lowerCh (trimCh l) = str "[interface]"
    · simp +decide [wgStep, nextInPeer, keyAt, h1, h2, hin]
    · cases hsp : splitOnceCh '=' (lowerCh (trimCh l)) with
      | none => simp [wgStep, nextInPeer, keyAt, h1, h2, hsp]
      | some kv =>
          cases hsp2 : splitOnceCh '=' (trimCh l) with
          | none =>
              simp only [wgStep, nextInPeer, keyAt, hostAt, valueAt, if_neg h1,
                if_neg h2, hsp, hsp2, Option.map_some, someBeqSome, beqStr_eq_decide]
              split_ifs with hA hB hC hD hE <;>
                cases fi <;> simp_all +decide [beqStr_eq_decide, hnil]
          | some kv2 =>
              simp only [wgStep, nextInPeer, keyAt, hostAt, valueAt, if_neg h1,
                if_neg h2, hsp, hsp2, Option.map_some, someBeqSome, beqStr_eq_decide]
              split_ifs with hA hB hC hD hE <;>
                cases fi <;> simp_all +decide [beqStr_eq_decide, hnil]

theorem foldl_wgStep (ls : List Str) (st : WgScan) :
    ls.foldl wgStep st =
      { has_private_key := st.has_private_key ||
          ((scanScopes st.in_peer ls).any fun p =>
            !p.2 && (keyAt p.1 == some (str "privatekey"))),
        has_address := st.has_address ||
          ((scanScopes st.in_peer ls).any fun p =>
            !p.2 && (keyAt p.1 == some (str "address"))),
        has_public_key := st.has_public_key ||
          ((scanScopes st.in_peer ls).any fun p =>
            p.2 && (keyAt p.1 == some (str "publickey"))),
        endpoint := if st.endpoint = [] then specEndpoint st.in_peer ls
          else st.endpoint,
        in_peer := scopeAfter st.in_peer ls } := by
  induction ls generalizing st with
  | nil =>
      obtain ⟨fp, fa, fq, fe, fi⟩ := st
      simp only [List.foldl_nil, scanScopes, List.any_nil, Bool.or_false,
        specEndpoint, scopeAfter, List.foldl_nil]
      split <;> simp_all
  | cons l ls ih =>
      rw [List.foldl_cons, ih, wgStep_eq]
      simp only [scanScopes, List.any_cons, specEndpoint, scopeAfter,
        List.foldl_cons, WgScan.mk.injEq]
      refine ⟨by rw [Bool.or_assoc], by rw [Bool.or_assoc], by rw [Bool.or_assoc],
        ?_, trivial⟩
      by_cases he : st.endpoint = []
      · by_cases hb : st.in_peer = true
        · by_cases hk : keyAt l = some (str "endpoint")
          · by_cases hh : hostAt l = []
            · simp [he, hb, hk, hh]
            · simp [he, hb, hk, hh]
          · have hC : ¬(st.in_peer = true ∧ keyAt l = some (str "endpoint") ∧
                st.endpoint = []) := by tauto
            have hD : ¬(st.in_peer = true ∧ keyAt l = some (str "endpoint") ∧
                hostAt l ≠ []) := by tauto
            simp [he, hC, hD]
        · have hC : ¬(st.in_peer = true ∧ keyAt l = some (str "endpoint") ∧
              st.endpoint = []) := by tauto
          have hD : ¬(st.in_peer = true ∧ keyAt l = some (str "endpoint") ∧
              hostAt l ≠ []) := by tauto
          simp [he, hC, hD]
      · have hC : ¬(st.in_peer = true ∧ keyAt l = some (str "endpoint") ∧
            st.endpoint = []) := by tauto
        simp [he, hC]

theorem beqGen_eq_decide {α : Type _} [BEq α] [LawfulBEq α] [DecidableEq α]
    (a b : α) : (a == b) = decide (a = b) := by
  by_cases h : a = b
  · subst h
    simp
  · have hb : (a == b) = false := by
      cases hab : a == b
      · rfl
      · exact absurd (eq_of_beq hab) h
    rw [hb, decide_eq_false h]

theorem specEndpoint_ne_iff (b : Bool) (ls : List Str) :
    specEndpoint b ls ≠ [] ↔
      ((scanScopes b ls).any fun p =>
        p.2 && (keyAt p.1 == some (str "endpoint")) && !(hostAt p.1).isEmpty)
        = true := by
  induction ls generalizing b with
  | nil => simp [specEndpoint, scanScopes]
  | cons l ls ih =>
      simp only [specEndpoint, scanScopes, List.any_cons, Bool.or_eq_true]
      by_cases hC : b = true ∧ keyAt l = some (str "endpoint") ∧ hostAt l ≠ []
      · rw [if_pos hC]
        obtain ⟨hb, hk, hh⟩ := hC
        simp [hb, hk, hh, beqGen_eq_decide]
      · rw [if_neg hC, ih]
        cases b with
        | false => simp
        | true =>
            by_cases hk : keyAt l = some (str "endpoint")
            · have hh : hostAt l = [] := by tauto
              simp [hk, hh, beqGen_eq_decide]
            · simp [hk, beqGen_eq_decide]

/-! ## Theorems for the import and parsing claims -/

/-- C8: `import_profile` returns an error (and hence creates no profile)
whenever the file size exceeds `MAX_CONFIG_SIZE_BYTES`, the file is
empty, or the lowercased extension is neither "conf" nor "ovpn". -/
theorem c8_import_profile_rejects (fm : FileModel)
    (h : MAX_CONFIG_SIZE_BYTES < fm.size ∨ fm.size = 0 ∨
      (lowerCh (fm.extension.getD []) ≠ str "conf" ∧
       lowerCh (fm.extension.getD []) ≠ str "ovpn")) :
    exceptIsOk (import_profile fm) = false := by
  cases hex : fm.pathExists with
  | false => simp [import_profile, exceptIsOk, hex]
  | true =>
      cases hm : fm.metadataOk with
      | false => simp [import_profile, exceptIsOk, hex, hm]
      | true =>
          rcases h with h | h | ⟨h1, h2⟩
          · simp [import_profile, exceptIsOk, hex, hm, h]
          · simp [import_profile, exceptIsOk, hex, hm, h]
          · by_cases hs1 : MAX_CONFIG_SIZE_BYTES < fm.size
            · simp [import_profile, exceptIsOk, hex, hm, hs1]
            · by_cases hs2 : fm.size = 0
              · simp [import_profile, exceptIsOk, hex, hm, hs2]
              · cases hco : fm.content with
                | none =>
                    simp [import_profile, exceptIsOk, hex, hm, hs1, hs2, hco]
                | some content =>
                    simp [import_profile, exceptIsOk, hex, hm, hs1, hs2, hco,
                      h1, h2]

theorem c8_import_profile_rejects_witness :
    (MAX_CONFIG_SIZE_BYTES < fmEmptyConf.size ∨ fmEmptyConf.size = 0 ∨
      (lowerCh (fmEmptyConf.extension.getD []) ≠ str "conf" ∧
       lowerCh (fmEmptyConf.extension.getD []) ≠ str "ovpn")) ∧
    exceptIsOk (import_profile fmEmptyConf) = false :=
  ⟨Or.inr (Or.inl rfl),
   c8_import_profile_rejects fmEmptyConf (Or.inr (Or.inl rfl))⟩

/-- C10 counterexample: on the content "clientfoo" followed by a newline,
the claim's reading ("some line starts with ... client") yields OpenVPN,
while the source requires the trimmed line to equal "client" exactly and
detects WireGuard. -/
theorem c10_detect_claim_counterexample :
    claimDetect (str "clientfoo\n") = .OpenVPN ∧
    detect_protocol_from_content (str "clientfoo\n") = .WireGuard :=
  ⟨by decide, by decide⟩

/-- C10 (amended): `detect_protocol_from_content` returns WireGuard when
the lowercased content contains both "[interface]" and "[peer]";
otherwise OpenVPN when some line, trimmed, starts with a remote
directive, is exactly "client", or starts with "dev " or "proto ";
otherwise it defaults to WireGuard, so unrecognized content is never
rejected at detection time. -/
theorem c10_detect_amended (content : Str) :
    detect_protocol_from_content content = claimDetectAmended content := by
  have hcond : ∀ ls : List Str,
      (((ls.any fun l => (str "remote ").isPrefixOf (trimCh l) ||
          (str "remote\t").isPrefixOf (trimCh l)) ||
        (ls.any fun l => trimCh l == str "client" ||
          (str "dev ").isPrefixOf (trimCh l) ||
          (str "proto ").isPrefixOf (trimCh l)))) =
      (ls.any fun l => (str "remote ").isPrefixOf (trimCh l) ||
        (str "remote\t").isPrefixOf (trimCh l) ||
        trimCh l == str "client" || (str "dev ").isPrefixOf (trimCh l) ||
        (str "proto ").isPrefixOf (trimCh l)) := by
    intro ls
    induction ls with
    | nil => rfl
    | cons a as ih =>
        simp only [List.any_cons]
        cases (str "remote ").isPrefixOf (trimCh a) <;>
        cases (str "remote\t").isPrefixOf (trimCh a) <;>
        cases trimCh a == str "client" <;>
        cases (str "dev ").isPrefixOf (trimCh a) <;>
        cases (str "proto ").isPrefixOf (trimCh a) <;>
        simp [← ih]
  simp only [detect_protocol_from_content, claimDetectAmended]
  rw [← hcond (rustLines (lowerCh content))]

/-- C9 counterexample: the content satisfies the claim's acceptance
condition (both sections, PrivateKey/Address outside [Peer],
PublicKey and an Endpoint with a non-empty value inside [Peer]) yet
`parse_wireguard_config` rejects it. -/
theorem c9_parse_claim_counterexample :
    wgClaimRequired wgCexContent = true ∧
    exceptIsOk (parse_wireguard_config wgCexContent (some (str "t"))) = false :=
  ⟨by decide, by decide⟩

/-- C9 (amended): `parse_wireguard_config` returns Ok exactly when the
content case-insensitively contains an `[Interface]` and a `[Peer]`
section, a PrivateKey and an Address key outside `[Peer]`, and a
PublicKey key and an Endpoint whose host part before the first colon is
non-empty inside `[Peer]`; and when it returns Err for a content with
both sections, the error message names exactly the missing required
fields. -/
theorem c9_parse_wireguard_iff (content : Str) (stem : Option Str) :
    exceptIsOk (parse_wireguard_config content stem) = wgRequiredAmended content ∧
    (hasSub (lowerCh content) (str "[interface]") = true →
     hasSub (lowerCh content) (str "[peer]") = true →
     wgMissingSpec content ≠ [] →
     parse_wireguard_config content stem =
       .error (str "Invalid WireGuard config — missing required fields: " ++
         List.intercalate (str ", ") (wgMissingSpec content))) := by
  have hp1 : ((rustLines content).foldl wgStep wgScanInit).has_private_key =
      hasKeyInScope content false (str "privatekey") := by
    rw [foldl_wgStep]
    simp only [wgScanInit, Bool.false_or, hasKeyInScope]
    congr 1
    funext p
    cases hq : p.2 <;> simp [hq]
  have hp2 : ((rustLines content).foldl wgStep wgScanInit).has_address =
      hasKeyInScope content false (str "address") := by
    rw [foldl_wgStep]
    simp only [wgScanInit, Bool.false_or, hasKeyInScope]
    congr 1
    funext p
    cases hq : p.2 <;> simp [hq]
  have hp3 : ((rustLines content).foldl wgStep wgScanInit).has_public_key =
      hasKeyInScope content true (str "publickey") := by
    rw [foldl_wgStep]
    simp only [wgScanInit, Bool.false_or, hasKeyInScope]
    congr 1
    funext p
    cases hq : p.2 <;> simp [hq]
  have hep : ((rustLines content).foldl wgStep wgScanInit).endpoint =
      specEndpoint false (rustLines content) := by
    rw [foldl_wgStep]
    simp [wgScanInit]
  have hcond : (specEndpoint false (rustLines content) = []) =
      (hasGoodEndpoint content = false) := by
    apply propext
    rw [← not_iff_not]
    simp only [Bool.not_eq_false]
    exact specEndpoint_ne_iff false (rustLines content)
  cases hI : hasSub (lowerCh content) (str "[interface]") with
  | false =>
      constructor
      · simp [parse_wireguard_config, wgRequiredAmended, exceptIsOk, hI]
      · intro h1 _ _
        exact absurd h1 (by decide)
  | true =>
      cases hP : hasSub (lowerCh content) (str "[peer]") with
      | false =>
          constructor
          · simp [parse_wireguard_config, wgRequiredAmended, exceptIsOk, hI, hP]
          · intro _ h2 _
            exact absurd h2 (by decide)
      | true =>
          constructor
          · cases hk1 : hasKeyInScope content false (str "privatekey") <;>
            cases hk2 : hasKeyInScope content false (str "address") <;>
            cases hk3 : hasKeyInScope content true (str "publickey") <;>
            cases hg : hasGoodEndpoint content <;>
            simp [parse_wireguard_config, wgRequiredAmended, wgMissingSpec,
              exceptIsOk, hI, hP, hp1, hp2, hp3, hep, hcond, hk1, hk2, hk3, hg]
          · intro _ _ hm
            cases hk1 : hasKeyInScope content false (str "privatekey") <;>
            cases hk2 : hasKeyInScope content false (str "address") <;>
            cases hk3 : hasKeyInScope content true (str "publickey") <;>
            cases hg : hasGoodEndpoint content <;>
            simp_all [parse_wireguard_config, wgMissingSpec, exceptIsOk,
              hI, hP, hp1, hp2, hp3, hep, hcond]

theorem c9_parse_wireguard_iff_witness :
    (hasSub (lowerCh wgWitnessContent) (str "[interface]") = true ∧
     hasSub (lowerCh wgWitnessContent) (str "[peer]") = true ∧
     wgMissingSpec wgWitnessContent ≠ []) ∧
    exceptIsOk (parse_wireguard_config wgWitnessContent (some (str "t"))) =
      wgRequiredAmended wgWitnessContent ∧
    parse_wireguard_config wgWitnessContent (some (str "t")) =
      .error (str "Invalid WireGuard config — missing required fields: " ++
        List.intercalate (str ", ") (wgMissingSpec wgWitnessContent)) :=
  ⟨⟨by decide, by decide, by decide⟩,
   (c9_parse_wireguard_iff wgWitnessContent (some (str "t"))).1,
   (c9_parse_wireguard_iff wgWitnessContent (some (str "t"))).2
     (by decide) (by decide) (by decide)⟩

end Vortix
